import Mathlib

/-!
Verification of the text-to-sql-agent question-to-answer pipeline.

Shallow embedding of the components referenced by the specification:
confidence scorer (`TextToSQLAgent._calculate_confidence`), two-tier model
fallback (`LLMManager.generate_with_fallback`), query generator retry loop
(`QueryGenerator.generate_query` with `_validate_syntax`), similarity search
(`SimpleVectorStore.search_similar_questions`), conversation memory
(`MemoryManager.add_message`), relevant-table lookup
(`MetadataManager.get_relevant_tables`), query executor
(`QueryExecutor.execute_query`) and question validator
(`QuestionValidator.validate` / `_check_length`).

External collaborators (the language-model providers, the embedding model and
cosine similarity, the database drivers, the sqlparse tokenizer) are modelled
as oracle parameters or by their documented behaviour; everything else is
translated statement by statement from the Python source.  Question and query
text is modelled as `List Char` (one entry per Python character), float
arithmetic as `ℚ`.
-/

/- ===== Python string helpers (str.strip / str.rstrip / str.upper) ===== -/

/-- Python whitespace characters recognised by `str.strip()`:
space, tab, newline, carriage return, vertical tab, form feed. -/
def pyIsSpace (c : Char) : Bool :=
  c = ' ' || c = '\t' || c = '\n' || c = '\r' || c = '\x0b' || c = '\x0c'

/-- Python `str.strip()`: drop whitespace from both ends. -/
def pyStrip (s : List Char) : List Char :=
  ((s.dropWhile pyIsSpace).reverse.dropWhile pyIsSpace).reverse

/-- Python `str.rstrip()`: drop whitespace from the right end. -/
def pyRstrip (s : List Char) : List Char :=
  (s.reverse.dropWhile pyIsSpace).reverse

/-- Python `str.upper()` restricted to ASCII (all SQL keywords the code
compares against are ASCII). -/
def pyUpper (s : List Char) : List Char :=
  s.map Char.toUpper

/-- Python `needle in hay` substring test. -/
def containsSub (needle : List Char) : List Char → Bool
  | [] => needle.isEmpty
  | c :: rest => needle.isPrefixOf (c :: rest) || containsSub needle rest

/-- Python `hay.count(ab)` for a two-character needle `ab`:
number of non-overlapping occurrences, scanning left to right. -/
def countPairs (a b : Char) : List Char → Nat
  | x :: y :: rest =>
    if x = a && y = b then 1 + countPairs a b rest else countPairs a b (y :: rest)
  | _ => 0

/-- The ASCII single-quote character. -/
def singleQuote : Char := Char.ofNat 39

/- ===== Confidence scorer: TextToSQLAgent._calculate_confidence ===== -/

/-- Python `max(0.0, min(1.0, x))`. -/
def clamp01 (x : ℚ) : ℚ := max 0 (min 1 x)

/-- Python truthiness of the `user_feedback` optional string in
`if self.config.feedback.eval_mode and user_feedback:`:
`None` and the empty string are falsy. -/
def feedback_truthy : Option String → Bool
  | none => false
  | some s => s ≠ ""

/-- `TextToSQLAgent._calculate_confidence` (agent.py 1091-1135).
`query_llm_confidence` models `query_result.get('llm_confidence', 0.8)`;
`execution_success` models `execution_result['success']`;
`eval_mode` models `self.config.feedback.eval_mode`. -/
def calculate_confidence (query_llm_confidence : Option ℚ) (execution_success : Bool)
    (eval_mode : Bool) (user_feedback : Option String) : ℚ :=
  let llm_confidence := query_llm_confidence.getD (8 / 10)
  if execution_success = false then 0
  else if eval_mode = true && feedback_truthy user_feedback then
    if user_feedback = some "positive" then clamp01 ((2 + llm_confidence) / 3)
    else if user_feedback = some "negative" then clamp01 (llm_confidence * (3 / 10))
    else clamp01 llm_confidence
  else clamp01 llm_confidence

/- ===== Model fallback: LLMManager.generate_with_fallback ===== -/

/-- The two language-model tiers. -/
inductive Tier
  | small
  | large
deriving DecidableEq

/-- One entry of the `result['attempts']` audit log:
`{'model': tier, 'attempt': i + 1, 'success': ..., 'error': ...}`. -/
structure Attempt where
  model : Tier
  attempt : Nat
  success : Bool
  error : Option String
deriving DecidableEq

/-- One `for attempt in range(max_retries_per_model)` loop of
`generate_with_fallback`, for one tier.  The oracle gives the outcome of
`provider.generate` on each 0-based attempt index: `Except.ok text` for a
normal return, `Except.error e` for a raised exception (recorded as
`str(e)`).  Returns the attempts recorded by the loop and, when some attempt
succeeded, the generated text (the loop returns immediately on success). -/
def tryModel (tier : Tier) (oracle : Nat → Except String String) :
    Nat → Nat → List Attempt × Option String
  | 0, _ => ([], none)
  | fuel + 1, idx =>
    match oracle idx with
    | Except.ok text => ([⟨tier, idx + 1, true, none⟩], some text)
    | Except.error e =>
      (⟨tier, idx + 1, false, some e⟩ :: (tryModel tier oracle fuel (idx + 1)).1,
       (tryModel tier oracle fuel (idx + 1)).2)

/-- The dict returned by `generate_with_fallback`, plus `raised`:
the function raises `Exception("Failed to generate text ...")` instead of
returning when every attempt on both tiers failed. -/
structure FallbackResult where
  text : Option String
  model_used : Option Tier
  attempts : List Attempt
  raised : Bool
deriving DecidableEq

/-- `LLMManager.generate_with_fallback` (llm_manager.py 133-202):
try the small provider up to `max_retries_per_model` times, then the large
provider up to `max_retries_per_model` times; first success returns. -/
def generate_with_fallback (small_oracle large_oracle : Nat → Except String String)
    (max_retries_per_model : Nat) : FallbackResult :=
  match (tryModel Tier.small small_oracle max_retries_per_model 0).2 with
  | some t =>
    ⟨some t, some Tier.small,
     (tryModel Tier.small small_oracle max_retries_per_model 0).1, false⟩
  | none =>
    match (tryModel Tier.large large_oracle max_retries_per_model 0).2 with
    | some t =>
      ⟨some t, some Tier.large,
       (tryModel Tier.small small_oracle max_retries_per_model 0).1 ++
         (tryModel Tier.large large_oracle max_retries_per_model 0).1, false⟩
    | none =>
      ⟨none, none,
       (tryModel Tier.small small_oracle max_retries_per_model 0).1 ++
         (tryModel Tier.large large_oracle max_retries_per_model 0).1, true⟩

/-- The attempts log recorded by one `generate_with_fallback` call. -/
def fallback_attempts (small_oracle large_oracle : Nat → Except String String)
    (r : Nat) : List Attempt :=
  (generate_with_fallback small_oracle large_oracle r).attempts

/- ===== QueryGenerator: _validate_syntax and the generate_query loop ===== -/

/-- `valid_starts` of `QueryGenerator._validate_syntax`. -/
def valid_starts : List (List Char) :=
  ["SELECT", "INSERT", "UPDATE", "DELETE", "WITH"].map String.toList

/-- `incomplete_endings` of `QueryGenerator._validate_syntax`, in source
order (the loop breaks at the first match). -/
def incomplete_endings : List (List Char) :=
  ["SELECT", "FROM", "WHERE", "GROUP BY", "ORDER BY",
   "JOIN", "INNER JOIN", "LEFT JOIN", "RIGHT JOIN",
   "ON", "AND", "OR", "AS", ","].map String.toList

/-- The error list accumulated by `QueryGenerator._validate_syntax`
(query_generator.py 211-288) on a query whose stripped text is non-empty.
External sqlparse behaviour: `sqlparse.parse` tokenizes any string with
non-whitespace content into at least one statement, so the
"Query could not be parsed" branch cannot fire here, and `sqlparse.format`
does not raise on a plain string, so the "Formatting error" and
"Parse error" branches cannot fire either. -/
def sql_check_errors (query : List Char) : List String :=
  let query_stripped := pyStrip query
  if query_stripped.isEmpty then ["Query is empty"]
  else
    let query_upper := pyUpper query_stripped
    let errors : List String := []
    let errors :=
      if (valid_starts.any (fun s => s.isPrefixOf query_upper)) = false then
        errors ++ ["Query must start with SELECT, INSERT, UPDATE, DELETE, or WITH"]
      else errors
    let errors :=
      if ("SELECT".toList).isPrefixOf query_upper then
        let errors :=
          if containsSub ("FROM".toList) query_upper = false then
            errors ++ ["SELECT query missing FROM clause"]
          else errors
        let errors :=
          match incomplete_endings.find? (fun e => e.isSuffixOf (pyRstrip query_upper)) with
          | some e =>
            errors ++ ["Query appears incomplete - ends with " ++
              String.singleton singleQuote ++ String.mk e ++ String.singleton singleQuote]
          | none => errors
        errors
      else errors
    let errors :=
      if (query.count '(' = query.count ')') = false then
        errors ++ ["Unbalanced parentheses"]
      else errors
    let single_quotes : Int :=
      (query.count singleQuote : Int) - (countPairs '\\' singleQuote query : Int)
    let errors :=
      if (single_quotes % 2 = 0) = false then errors ++ ["Unclosed single quotes"]
      else errors
    let double_quotes : Int :=
      (query.count '"' : Int) - (countPairs '\\' '"' query : Int)
    let errors :=
      if (double_quotes % 2 = 0) = false then errors ++ ["Unclosed double quotes"]
      else errors
    errors

/-- `QueryGenerator._validate_syntax`: returns
`(len(errors) == 0, errors if errors else None)`; when
`self.config.syntax_check_enabled` is off it returns `(True, None)`
without checking anything. -/
def sql_check (check_enabled : Bool) (query : List Char) : Bool × Option (List String) :=
  if check_enabled = false then (true, none)
  else
    let errors := sql_check_errors query
    (errors.isEmpty, if errors.isEmpty then none else some errors)

/-- The dict returned by `QueryGenerator.generate_query`, restricted to the
fields the verified claims mention, plus `generation_calls`: the number of
`generate_with_fallback` calls the loop issued (`attempt + 1` on exit). -/
structure GenOutcome where
  query : List Char
  validation_passed : Bool
  validation_errors : Option (List String)
  generation_calls : Nat
deriving DecidableEq

/-- The `for attempt in range(max_validation_retries)` loop of
`QueryGenerator.generate_query` (query_generator.py 22-109), for the case
where every generation call returns normally.  `gen i` is the SQL text
extracted (`_extract_sql_and_confidence`) from the generation issued on
0-based loop iteration `i`; `none` models falling off the loop end
(the final `raise`), which happens only when `max_validation_retries = 0`. -/
def genLoop (gen : Nat → List Char) (check_enabled : Bool) :
    Nat → Nat → Option GenOutcome
  | 0, _ => none
  | remaining + 1, attempt =>
    if (sql_check check_enabled (gen attempt)).1 then
      some ⟨gen attempt, true, none, attempt + 1⟩
    else if remaining = 0 then
      some ⟨gen attempt, false, (sql_check check_enabled (gen attempt)).2, attempt + 1⟩
    else genLoop gen check_enabled remaining (attempt + 1)

/-- `QueryGenerator.generate_query` with its validation/self-correction
retry loop (the correction prompt only changes what is sent to the model,
i.e. the `gen` oracle; the control flow is unchanged by it). -/
def generate_query (gen : Nat → List Char) (check_enabled : Bool)
    (max_validation_retries : Nat) : Option GenOutcome :=
  genLoop gen check_enabled max_validation_retries 0

/- ===== SimpleVectorStore.search_similar_questions ===== -/

/-- `similarities[idx]` with numpy's in-range indexing (all indices used
come from `np.argsort` and are in range; out-of-range defaults to 0). -/
def simOf (sims : List ℚ) (i : Nat) : ℚ := sims.getD i 0

/-- The ascending order realised by `np.argsort(similarities)`:
by similarity value, equal values by position (numpy's sort of the
index array is deterministic and, on ties, keeps the ascending index
order the stable model prescribes). -/
def argsort_le (sims : List ℚ) (i j : Nat) : Prop :=
  simOf sims i < simOf sims j ∨ (simOf sims i = simOf sims j ∧ i ≤ j)

instance (sims : List ℚ) : DecidableRel (argsort_le sims) := fun i j => by
  unfold argsort_le
  infer_instance

/-- `np.argsort(similarities)[::-1]`: sort the index array `0..n-1`
ascending by similarity, then reverse. -/
def argsort_desc (sims : List ℚ) : List Nat :=
  (List.insertionSort (argsort_le sims) (List.range sims.length)).reverse

/-- `SimpleVectorStore.search_similar_questions` (vector_store.py 174-213),
with the external embedder and `cosine_similarity` abstracted into `sims`
(the cosine similarity of the query with each stored pair, by insertion
position).  Returns `(index, similarity)` for each reported match, in
reported order: indices `np.argsort(similarities)[::-1][:top_k]`, keeping
those with `similarity >= threshold`. -/
def search_similar_questions (sims : List ℚ) (top_k : Nat) (threshold : ℚ) :
    List (Nat × ℚ) :=
  if sims.isEmpty then []
  else
    (((argsort_desc sims).take top_k).filter
      (fun idx => threshold ≤ simOf sims idx)).map
      (fun idx => (idx, simOf sims idx))

/-- The ranking order the code actually produces: descending similarity,
ties broken by the later-inserted (higher-index) pair first. -/
def rank_rel (a b : Nat × ℚ) : Prop :=
  b.2 < a.2 ∨ (a.2 = b.2 ∧ b.1 < a.1)

/-- The ranking order the specification asserts: descending similarity,
ties broken by the earlier-inserted (lower-index) pair first. -/
def spec_rank_rel (a b : Nat × ℚ) : Prop :=
  b.2 < a.2 ∨ (a.2 = b.2 ∧ a.1 < b.1)

instance (sims : List ℚ) : IsTotal Nat (argsort_le sims) := by
  constructor
  intro i j
  unfold argsort_le
  rcases lt_trichotomy (simOf sims i) (simOf sims j) with h | h | h
  · exact Or.inl (Or.inl h)
  · rcases Nat.le_total i j with hij | hij
    · exact Or.inl (Or.inr ⟨h, hij⟩)
    · exact Or.inr (Or.inr ⟨h.symm, hij⟩)
  · exact Or.inr (Or.inl h)

instance (sims : List ℚ) : IsTrans Nat (argsort_le sims) := by
  constructor
  intro i j k hij hjk
  unfold argsort_le at hij hjk ⊢
  rcases hij with h1 | ⟨h1, h1'⟩
  · rcases hjk with h2 | ⟨h2, h2'⟩
    · exact Or.inl (h1.trans h2)
    · exact Or.inl (h2 ▸ h1)
  · rcases hjk with h2 | ⟨h2, h2'⟩
    · exact Or.inl (h1 ▸ h2)
    · exact Or.inr ⟨h1.trans h2, le_trans h1' h2'⟩

instance : DecidableRel rank_rel := fun a b => by
  unfold rank_rel
  infer_instance

instance : DecidableRel spec_rank_rel := fun a b => by
  unfold spec_rank_rel
  infer_instance

/- ===== MemoryManager.add_message ===== -/

/-- One conversation message (memory.py `ConversationMessage`); metadata
modelled as an association list. -/
structure ConversationMessage where
  role : String
  content : String
  metadata : List (String × String)
deriving DecidableEq

/-- `collections.deque(maxlen).append`: append on the right, evicting from
the left when the deque is at capacity. -/
def deque_append (maxlen : Nat) (msgs : List ConversationMessage)
    (m : ConversationMessage) : List ConversationMessage :=
  let l := msgs ++ [m]
  l.drop (l.length - maxlen)

/-- `MemoryManager.add_message` (memory.py 59-73): build the message and
append it to `self.messages`, a `deque(maxlen=config.max_context_messages)`. -/
def add_message (maxlen : Nat) (msgs : List ConversationMessage)
    (role content : String) (metadata : List (String × String)) :
    List ConversationMessage :=
  deque_append maxlen msgs ⟨role, content, metadata⟩

/- ===== MetadataManager.get_relevant_tables ===== -/

/-- Table metadata as `_fetch_metadata` reports it (name, description,
columns as (name, type) pairs). -/
structure TableMeta where
  table_name : String
  description : String
  columns : List (String × String)
deriving DecidableEq

/-- `MetadataManager._fetch_metadata` (metadata_manager.py 676-697) against
a backend whose visible tables are `catalog`.  With no table name it
reports every table; with a table name it reports the tables so named
(the per-backend adapters filter `information_schema` / `SHOW TABLES` on
that name, yielding nothing for a name the backend does not have). -/
def fetch_metadata (catalog : List TableMeta) : Option String → List TableMeta
  | none => catalog
  | some n => catalog.filter (fun t => t.table_name = n)

/-- The `table_names` set built from the similarity-search results: the
`'table_name'` metadata entries present, deduplicated. -/
def extract_table_names (results : List (Option String)) : List String :=
  (results.filterMap id).eraseDups

/-- `MetadataManager.get_relevant_tables` (metadata_manager.py 698-747)
with the `self.vector_store.search(question, top_k=10)` call abstracted
into `vs`: `Except.ok results` models a normal return (each result's
optional `'table_name'` metadata entry), `Except.error` a raised
exception, handled by the fallback `except` branch.  `embedded` is
`self.db_type in ['sqlite', 'iceberg']`. -/
def get_relevant_tables_with (embedded : Bool) (catalog : List TableMeta)
    (vs : Except String (List (Option String))) : List TableMeta :=
  if embedded then fetch_metadata catalog none
  else
    match vs with
    | Except.error _ => fetch_metadata catalog none
    | Except.ok results =>
      let table_names := extract_table_names results
      if table_names.isEmpty = false then
        table_names.flatMap (fun n => fetch_metadata catalog (some n))
      else fetch_metadata catalog none

/-- The outcome of `self.vector_store.search(question, top_k=10)` in this
repository: the `VectorStore` base class and its four implementations
(Simple/Qdrant/ChromaDB/Pinecone, vector_store.py) define
`search_similar_questions` and `search_relevant_metadata` but no method
named `search`, so the attribute lookup raises `AttributeError` on every
call, for every question. -/
def vector_store_search_outcome : Except String (List (Option String)) :=
  Except.error "AttributeError: VectorStore object has no method search"

/-- `MetadataManager.get_relevant_tables` as it actually runs. -/
def get_relevant_tables (embedded : Bool) (catalog : List TableMeta) :
    List TableMeta :=
  get_relevant_tables_with embedded catalog vector_store_search_outcome

/- ===== QueryExecutor.execute_query ===== -/

/-- The result dict of `QueryExecutor.execute_query` (the
`execution_time` float is not modelled). -/
structure QueryResult where
  columns : List String
  rows : List (List String)
  row_count : Nat
  success : Bool
  error : Option String
deriving DecidableEq

/-- Connection accounting for one `execute_query` call on the embedded
(sqlite) backend: how many per-call connections the call opened via
`sqlite3.connect`, and how many it closed via `conn.close()`. -/
structure ConnTrace where
  opened : Nat
  closed : Nat
deriving DecidableEq

/-- `QueryExecutor.execute_query` (query_executor.py 187-270), sqlite
branch.  `exec_outcome` abstracts the driver: `Except.ok (columns, rows)`
models `cursor.execute` succeeding with the given result set,
`Except.error e` models it raising an exception with `str(e) = e`.
The per-call connection is opened first; on the success path the code runs
`cursor.close(); conn.close()`; on the exception path the `except` handler
returns the failure dict directly — there is no `finally`/`with`, so the
connection opened in the call is not closed. -/
def execute_query (exec_outcome : Except String (List String × List (List String)))
    (max_result_rows : Nat) : QueryResult × ConnTrace :=
  match exec_outcome with
  | Except.ok (columns, all_rows) =>
    let rows := all_rows.take max_result_rows
    (⟨columns, rows, rows.length, true, none⟩, ⟨1, 1⟩)
  | Except.error e =>
    (⟨[], [], 0, false, some e⟩, ⟨1, 0⟩)

/- ===== QuestionValidator ===== -/

/-- The validator configuration (config.py `ValidationConfig`); defaults:
`min_question_length=5`, `max_question_length=500`, both LLM checks on. -/
structure ValidationCfg where
  min_question_length : Nat
  max_question_length : Nat
  check_relevance : Bool
  check_answerability : Bool
deriving DecidableEq

/-- The `ValidationConfig` defaults. -/
def default_validation_config : ValidationCfg := ⟨5, 500, true, true⟩

/-- `QuestionValidator._check_length` (validator.py 86-96):
`length = len(question.strip())`, compared against the configured bounds. -/
def check_length (cfg : ValidationCfg) (question : List Char) : Bool × Option String :=
  let length := (pyStrip question).length
  if length < cfg.min_question_length then
    (false, some ("Question too short (minimum " ++
      toString cfg.min_question_length ++ " characters)"))
  else if length > cfg.max_question_length then
    (false, some ("Question too long (maximum " ++
      toString cfg.max_question_length ++ " characters)"))
  else (true, none)

/-- The outcome of `QuestionValidator.validate`, with two extra flags
recording whether the relevance and answerability checks ran (i.e.
whether `_check_relevance_with_context` / `_check_answerability` were
called before returning). -/
structure ValidateOutcome where
  valid : Bool
  reason : Option String
  relevance_ran : Bool
  answerability_ran : Bool
deriving DecidableEq

/-- `QuestionValidator.validate` (validator.py 25-51).  The two LLM-backed
checks are abstracted as oracles giving `(valid, reason)`; the length
check runs first and short-circuits, then relevance (when configured),
then answerability (when configured). -/
def validate (cfg : ValidationCfg) (relevance answerability : Bool × Option String)
    (question : List Char) : ValidateOutcome :=
  let lengthCheck := check_length cfg question
  if lengthCheck.1 = false then
    ⟨false, lengthCheck.2, false, false⟩
  else if cfg.check_relevance && (relevance.1 = false) then
    ⟨false, relevance.2, true, false⟩
  else if cfg.check_answerability && (answerability.1 = false) then
    ⟨false, answerability.2, cfg.check_relevance, true⟩
  else
    ⟨true, none, cfg.check_relevance, cfg.check_answerability⟩

/- ===================== Theorems ===================== -/

/-- `clamp01` is the identity on `[0, 1]`. -/
theorem clamp01_eq_self {x : ℚ} (h0 : 0 ≤ x) (h1 : x ≤ 1) : clamp01 x = x := by
  unfold clamp01
  rw [min_eq_right h1, max_eq_right h0]

/-- `clamp01` is bounded below by 0. -/
theorem clamp01_nonneg (x : ℚ) : 0 ≤ clamp01 x := le_max_left 0 (min 1 x)

/-- `clamp01` is bounded above by 1. -/
theorem clamp01_le_one (x : ℚ) : clamp01 x ≤ 1 :=
  max_le (by norm_num) (min_le_left 1 x)

/-- C1: the confidence scorer with `llm_confidence` in `[0, 1]`: execution
failure forces 0; in evaluation mode, positive feedback maps to
`(2 + llm_confidence) / 3` and negative feedback to `llm_confidence * 0.3`;
no feedback passes `llm_confidence` through unchanged; the result always
lies in `[0, 1]`; and `score(0.9, true, "positive") = (2 + 0.9) / 3`. -/
theorem c1_confidence_score (c : ℚ) (eval_mode : Bool) (fb : Option String)
    (h0 : 0 ≤ c) (h1 : c ≤ 1) :
    calculate_confidence (some c) false eval_mode fb = 0
    ∧ calculate_confidence (some c) true true (some "positive") = (2 + c) / 3
    ∧ calculate_confidence (some c) true true (some "negative") = c * (3 / 10)
    ∧ calculate_confidence (some c) true eval_mode none = c
    ∧ (∀ success fb2, 0 ≤ calculate_confidence (some c) success eval_mode fb2
        ∧ calculate_confidence (some c) success eval_mode fb2 ≤ 1)
    ∧ calculate_confidence (some ((9 : ℚ) / 10)) true true (some "positive") =
        (2 + (9 : ℚ) / 10) / 3 := by
  refine ⟨rfl, ?_, ?_, ?_, ?_, ?_⟩
  · show clamp01 ((2 + c) / 3) = (2 + c) / 3
    exact clamp01_eq_self (by positivity) ((div_le_one (by norm_num)).mpr (by linarith))
  · show clamp01 (c * (3 / 10)) = c * (3 / 10)
    refine clamp01_eq_self (by positivity) ?_
    nlinarith
  · cases eval_mode <;>
      simpa [calculate_confidence, feedback_truthy] using clamp01_eq_self h0 h1
  · intro success fb2
    cases success
    · simp [calculate_confidence]
    · unfold calculate_confidence
      split_ifs <;>
        first
          | exact ⟨le_refl 0, by norm_num⟩
          | exact ⟨clamp01_nonneg _, clamp01_le_one _⟩
  · show clamp01 ((2 + (9 : ℚ) / 10) / 3) = (2 + (9 : ℚ) / 10) / 3
    exact clamp01_eq_self (by norm_num) (by norm_num)

/-- Witness for C1 at `llm_confidence = 0.9`. -/
theorem c1_confidence_score_witness :
    ((0 : ℚ) ≤ 9 / 10 ∧ (9 : ℚ) / 10 ≤ 1)
    ∧ calculate_confidence (some ((9 : ℚ) / 10)) true true (some "positive") =
        (2 + (9 : ℚ) / 10) / 3 :=
  ⟨⟨by norm_num, by norm_num⟩,
    (c1_confidence_score ((9 : ℚ) / 10) true none (by norm_num) (by norm_num)).2.1⟩

/-- C9: in evaluation mode with execution success, `'neutral'` feedback
falls through the positive/negative branches and yields exactly the
no-feedback value, the clamped `llm_confidence`. -/
theorem c9_neutral_feedback (c : ℚ) :
    calculate_confidence (some c) true true (some "neutral") =
      calculate_confidence (some c) true true none
    ∧ calculate_confidence (some c) true true (some "neutral") = clamp01 c :=
  ⟨rfl, rfl⟩

/-- C7: on the embedded (sqlite) backend, when executing the SQL raises,
`execute_query` returns the failure dict with the per-call connection it
opened still unclosed — the claimed release-on-every-exit-path does not
hold on the exception path. -/
theorem c7_sqlite_connection_not_closed :
    (execute_query (Except.error "near SELEC: syntax error") 10000).2.opened = 1
    ∧ (execute_query (Except.error "near SELEC: syntax error") 10000).2.closed = 0
    ∧ (execute_query (Except.error "near SELEC: syntax error") 10000).1.success = false := by
  decide

/-- C8 (amended): every `execute_query` result satisfies
`row_count = len(rows)` and `len(rows) ≤ max_result_rows`, and on failure
columns/rows are empty, `row_count = 0` and an error string — the raised
exception's message, not guaranteed non-empty — is present. -/
theorem c8_result_invariants
    (o : Except String (List String × List (List String))) (maxRows : Nat) :
    (execute_query o maxRows).1.row_count = (execute_query o maxRows).1.rows.length
    ∧ (execute_query o maxRows).1.rows.length ≤ maxRows
    ∧ ((execute_query o maxRows).1.success = false →
        (execute_query o maxRows).1.columns = []
        ∧ (execute_query o maxRows).1.rows = []
        ∧ (execute_query o maxRows).1.row_count = 0
        ∧ ((execute_query o maxRows).1.error).isSome = true) := by
  rcases o with e | ⟨cols, rows⟩ <;> simp [execute_query]

/-- Witness for C8 on a failing execution. -/
theorem c8_result_invariants_witness :
    (execute_query (Except.error "database is locked") 10).1.columns = []
    ∧ (execute_query (Except.error "database is locked") 10).1.rows = []
    ∧ (execute_query (Except.error "database is locked") 10).1.row_count = 0
    ∧ ((execute_query (Except.error "database is locked") 10).1.error).isSome = true :=
  (c8_result_invariants (Except.error "database is locked") 10).2.2 (by decide)

/-- C8 counterexample to the claim as stated: an exception whose message is
the empty string yields a failure result whose error string is empty, so
the result does not carry a non-empty error string. -/
theorem c8_empty_error_counterexample :
    (execute_query (Except.error "") 10000).1.success = false
    ∧ (execute_query (Except.error "") 10000).1.error = some "" := by
  decide

/-- C10 helper: an out-of-bounds stripped length makes `_check_length`
fail with a length reason. -/
theorem check_length_invalid (cfg : ValidationCfg) (q : List Char)
    (h : (pyStrip q).length < cfg.min_question_length
      ∨ cfg.max_question_length < (pyStrip q).length) :
    (check_length cfg q).1 = false ∧ ((check_length cfg q).2).isSome = true := by
  rcases Nat.lt_or_ge (pyStrip q).length cfg.min_question_length with hlt | hge
  · unfold check_length
    simp [hlt]
  · have hgt : cfg.max_question_length < (pyStrip q).length := by
      rcases h with h | h
      · omega
      · exact h
    have hnlt : ¬ (pyStrip q).length < cfg.min_question_length := by omega
    unfold check_length
    simp [hnlt, hgt]

/-- C10: the length check runs on the whitespace-stripped question; when
the stripped length is out of bounds, `validate` returns invalid with the
length reason and neither the relevance nor the answerability check runs. -/
theorem c10_length_check_first (cfg : ValidationCfg)
    (relevance answerability : Bool × Option String) (q : List Char)
    (h : (pyStrip q).length < cfg.min_question_length
      ∨ cfg.max_question_length < (pyStrip q).length) :
    validate cfg relevance answerability q =
      ⟨false, (check_length cfg q).2, false, false⟩
    ∧ ((check_length cfg q).2).isSome = true := by
  have hc := check_length_invalid cfg q h
  refine ⟨?_, hc.2⟩
  unfold validate
  simp [hc.1]

/-- Witness for C10: a question of six spaces has raw length 6, inside the
default raw bounds `[5, 500]`, yet is rejected with a length reason before
the relevance/answerability checks. -/
theorem c10_length_check_first_witness :
    ([' ', ' ', ' ', ' ', ' ', ' '].length = 6
      ∧ default_validation_config.min_question_length ≤ 6
      ∧ 6 ≤ default_validation_config.max_question_length)
    ∧ validate default_validation_config (true, none) (true, none)
        [' ', ' ', ' ', ' ', ' ', ' '] =
      ⟨false, (check_length default_validation_config
        [' ', ' ', ' ', ' ', ' ', ' ']).2, false, false⟩ :=
  ⟨by decide,
    (c10_length_check_first default_validation_config (true, none) (true, none)
      [' ', ' ', ' ', ' ', ' ', ' '] (Or.inl (by decide))).1⟩

/-- C5 helper: one deque append keeps the length within `maxlen`. -/
theorem deque_append_length_le (maxlen : Nat) (msgs : List ConversationMessage)
    (m : ConversationMessage) : (deque_append maxlen msgs m).length ≤ maxlen := by
  simp [deque_append]
  omega

/-- C5 helper: dropping inside the left part of an append commutes with
appending on the right. -/
theorem drop_left_append (d : Nat) (A B : List ConversationMessage)
    (hA : d ≤ A.length) : A.drop d ++ B = (A ++ B).drop d := by
  rw [List.drop_append_eq_append_drop, Nat.sub_eq_zero_of_le hA, List.drop_zero]

/-- C5 helper: folding deque appends over `xs` from an accumulator within
capacity keeps exactly the last `maxlen` elements of `acc ++ xs`. -/
theorem foldl_deque_append (maxlen : Nat) (xs : List ConversationMessage) :
    ∀ acc : List ConversationMessage, acc.length ≤ maxlen →
      xs.foldl (deque_append maxlen) acc =
        (acc ++ xs).drop (acc.length + xs.length - maxlen) := by
  induction xs with
  | nil =>
    intro acc h
    simp [Nat.sub_eq_zero_of_le h]
  | cons x xs ih =>
    intro acc h
    rw [List.foldl_cons, ih _ (deque_append_length_le maxlen acc x)]
    have hdeq : deque_append maxlen acc x =
        (acc ++ [x]).drop (acc.length + 1 - maxlen) := by
      simp [deque_append]
    have hA : acc.length + 1 - maxlen ≤ (acc ++ [x]).length := by
      simp only [List.length_append, List.length_cons, List.length_nil]
      omega
    have hl : (acc ++ [x]) ++ xs = acc ++ x :: xs := by simp
    rw [hdeq, drop_left_append _ _ _ hA, List.drop_drop, hl]
    congr 1
    simp only [List.length_drop, List.length_append, List.length_cons, List.length_nil]
    omega

/-- C5: after more `add_message` calls than the configured maximum, the
message list holds exactly the `maxlen` most recent messages, in
insertion order (oldest evicted first), so its length is `maxlen`. -/
theorem c5_memory_bound (maxlen : Nat) (calls : List ConversationMessage)
    (h : maxlen < calls.length) :
    (calls.foldl (fun ms m => add_message maxlen ms m.role m.content m.metadata) []) =
      calls.drop (calls.length - maxlen)
    ∧ (calls.foldl
        (fun ms m => add_message maxlen ms m.role m.content m.metadata) []).length =
      maxlen := by
  have key : (calls.foldl
      (fun ms m => add_message maxlen ms m.role m.content m.metadata) []) =
      calls.drop (calls.length - maxlen) := by
    have hfold := foldl_deque_append maxlen calls [] (by simp)
    simpa using hfold
  refine ⟨key, ?_⟩
  rw [key, List.length_drop]
  omega

/-- Witness for C5: three messages through a bound of 2 keep the last two. -/
theorem c5_memory_bound_witness :
    (([⟨"user", "q1", []⟩, ⟨"assistant", "a1", []⟩, ⟨"user", "q2", []⟩] :
        List ConversationMessage).foldl
      (fun ms m => add_message 2 ms m.role m.content m.metadata) []) =
      ([⟨"user", "q1", []⟩, ⟨"assistant", "a1", []⟩, ⟨"user", "q2", []⟩] :
        List ConversationMessage).drop 1 :=
  (c5_memory_bound 2 [⟨"user", "q1", []⟩, ⟨"assistant", "a1", []⟩, ⟨"user", "q2", []⟩]
    (by decide)).1

/-- C6: `get_relevant_tables` returns empty on an empty catalog (for any
search outcome); the embedded (sqlite/iceberg) branch returns all tables;
a failed or matchless similarity search falls back to the full table
list; and, since in this repository the `vector_store.search` call always
raises (no such method exists), a non-empty catalog never yields an empty
result. -/
theorem c6_relevant_tables_fallback (embedded : Bool) (catalog : List TableMeta)
    (vs : Except String (List (Option String)))
    (results : List (Option String)) (e : String) :
    get_relevant_tables_with embedded [] vs = []
    ∧ get_relevant_tables_with true catalog vs = catalog
    ∧ get_relevant_tables_with false catalog (Except.error e) = catalog
    ∧ ((extract_table_names results).isEmpty = true →
        get_relevant_tables_with false catalog (Except.ok results) = catalog)
    ∧ (catalog ≠ [] → get_relevant_tables embedded catalog ≠ []) := by
  refine ⟨?_, rfl, rfl, ?_, ?_⟩
  · cases embedded
    · cases vs with
      | error e2 => rfl
      | ok results2 =>
        simp [get_relevant_tables_with, fetch_metadata, List.filter_nil]
    · rfl
  · intro hempty
    simp [get_relevant_tables_with, hempty, fetch_metadata]
  · intro hne
    unfold get_relevant_tables get_relevant_tables_with vector_store_search_outcome
    cases embedded <;> simpa [fetch_metadata] using hne

/-- Witness for C6 on a one-table catalog with a large (non-embedded)
backend. -/
theorem c6_relevant_tables_fallback_witness :
    get_relevant_tables false [⟨"users", "registered users", [("id", "INTEGER")]⟩] ≠ [] :=
  (c6_relevant_tables_fallback false
    [⟨"users", "registered users", [("id", "INTEGER")]⟩]
    (Except.error "") [] "").2.2.2.2 (by decide)

/-- C2 helper: every attempt recorded by one tier loop carries that tier. -/
theorem tryModel_model (tier : Tier) (oracle : Nat → Except String String) :
    ∀ fuel idx, ∀ a ∈ (tryModel tier oracle fuel idx).1, a.model = tier := by
  intro fuel
  induction fuel with
  | zero =>
    intro idx a ha
    simp [tryModel] at ha
  | succ n ih =>
    intro idx a ha
    rw [tryModel] at ha
    cases h : oracle idx with
    | ok t =>
      rw [h] at ha
      simp at ha
      rw [ha]
    | error e =>
      rw [h] at ha
      simp at ha
      rcases ha with rfl | ha
      · rfl
      · exact ih _ a ha

/-- C2 helper: a tier loop that did not succeed recorded exactly `fuel`
attempts, all failed. -/
theorem tryModel_none (tier : Tier) (oracle : Nat → Except String String) :
    ∀ fuel idx, (tryModel tier oracle fuel idx).2 = none →
      (tryModel tier oracle fuel idx).1.length = fuel
      ∧ ∀ a ∈ (tryModel tier oracle fuel idx).1, a.success = false := by
  intro fuel
  induction fuel with
  | zero =>
    intro idx _
    exact ⟨rfl, by simp [tryModel]⟩
  | succ n ih =>
    intro idx hnone
    rw [tryModel] at hnone ⊢
    cases h : oracle idx with
    | ok t =>
      rw [h] at hnone
      simp at hnone
    | error e =>
      rw [h] at hnone
      simp only at hnone
      obtain ⟨hlen, hfail⟩ := ih (idx + 1) hnone
      constructor
      · simp [hlen]
      · intro a ha
        simp at ha
        rcases ha with rfl | ha
        · rfl
        · exact hfail a ha

/-- C2 helper: all attempts recorded by a tier loop except the last one
are failures. -/
theorem tryModel_dropLast (tier : Tier) (oracle : Nat → Except String String) :
    ∀ fuel idx, ∀ a ∈ (tryModel tier oracle fuel idx).1.dropLast, a.success = false := by
  intro fuel
  induction fuel with
  | zero =>
    intro idx a ha
    simp [tryModel] at ha
  | succ n ih =>
    intro idx a ha
    rw [tryModel] at ha
    cases h : oracle idx with
    | ok t =>
      rw [h] at ha
      simp at ha
    | error e =>
      rw [h] at ha
      simp only at ha
      cases hr : (tryModel tier oracle n (idx + 1)).1 with
      | nil =>
        rw [hr] at ha
        simp at ha
      | cons y t =>
        rw [hr, List.dropLast_cons₂] at ha
        rcases List.mem_cons.mp ha with rfl | ha2
        · rfl
        · exact ih (idx + 1) a (by rw [hr]; exact ha2)

/-- C2 helper: a tier loop that succeeded recorded a non-empty log. -/
theorem tryModel_some_ne_nil (tier : Tier) (oracle : Nat → Except String String) :
    ∀ fuel idx t, (tryModel tier oracle fuel idx).2 = some t →
      (tryModel tier oracle fuel idx).1 ≠ [] := by
  intro fuel
  induction fuel with
  | zero =>
    intro idx t h
    simp [tryModel] at h
  | succ n ih =>
    intro idx t h
    rw [tryModel]
    cases ho : oracle idx <;> simp

/-- C2: in one `generate_with_fallback` call, every small-tier attempt
precedes every large-tier attempt in the attempts log; a large-tier
attempt occurs only after `R` consecutive failed small-tier attempts
(the first `R` log entries are failed small-tier attempts); and every
attempt except possibly the last recorded one is a failure, so the first
success is the last attempt recorded. -/
theorem c2_fallback_tier_order (small_oracle large_oracle : Nat → Except String String)
    (r : Nat) :
    (∃ xs ys, fallback_attempts small_oracle large_oracle r = xs ++ ys
      ∧ (∀ a ∈ xs, a.model = Tier.small) ∧ (∀ a ∈ ys, a.model = Tier.large))
    ∧ ((∃ a ∈ fallback_attempts small_oracle large_oracle r, a.model = Tier.large) →
        ((fallback_attempts small_oracle large_oracle r).take r).length = r
        ∧ ∀ a ∈ (fallback_attempts small_oracle large_oracle r).take r,
            a.model = Tier.small ∧ a.success = false)
    ∧ (∀ a ∈ (fallback_attempts small_oracle large_oracle r).dropLast,
        a.success = false) := by
  unfold fallback_attempts generate_with_fallback
  cases hs : (tryModel Tier.small small_oracle r 0).2 with
  | some t =>
    simp only
    refine ⟨⟨(tryModel Tier.small small_oracle r 0).1, [], by simp,
      tryModel_model Tier.small small_oracle r 0, by simp⟩, ?_, ?_⟩
    · rintro ⟨a, ha, hlarge⟩
      have hsmall := tryModel_model Tier.small small_oracle r 0 a ha
      rw [hsmall] at hlarge
      exact absurd hlarge (by decide)
    · exact tryModel_dropLast Tier.small small_oracle r 0
  | none =>
    obtain ⟨hslen, hsfail⟩ := tryModel_none Tier.small small_oracle r 0 hs
    have htake : ((tryModel Tier.small small_oracle r 0).1 ++
        (tryModel Tier.large large_oracle r 0).1).take r =
        (tryModel Tier.small small_oracle r 0).1 := by
      exact List.take_left' hslen
    cases hl : (tryModel Tier.large large_oracle r 0).2 with
    | some t =>
      simp only
      refine ⟨⟨(tryModel Tier.small small_oracle r 0).1,
        (tryModel Tier.large large_oracle r 0).1, rfl,
        tryModel_model Tier.small small_oracle r 0,
        tryModel_model Tier.large large_oracle r 0⟩, ?_, ?_⟩
      · intro _
        rw [htake]
        exact ⟨hslen, fun a ha =>
          ⟨tryModel_model Tier.small small_oracle r 0 a ha, hsfail a ha⟩⟩
      · rw [List.dropLast_append_of_ne_nil _
          (tryModel_some_ne_nil Tier.large large_oracle r 0 t hl)]
        intro a ha
        rcases List.mem_append.mp ha with ha | ha
        · exact hsfail a ha
        · exact tryModel_dropLast Tier.large large_oracle r 0 a ha
    | none =>
      obtain ⟨hllen, hlfail⟩ := tryModel_none Tier.large large_oracle r 0 hl
      simp only
      refine ⟨⟨(tryModel Tier.small small_oracle r 0).1,
        (tryModel Tier.large large_oracle r 0).1, rfl,
        tryModel_model Tier.small small_oracle r 0,
        tryModel_model Tier.large large_oracle r 0⟩, ?_, ?_⟩
      · intro _
        rw [htake]
        exact ⟨hslen, fun a ha =>
          ⟨tryModel_model Tier.small small_oracle r 0 a ha, hsfail a ha⟩⟩
      · intro a ha
        have hmem := (List.dropLast_sublist _).subset ha
        rcases List.mem_append.mp hmem with hm | hm
        · exact hsfail a hm
        · exact hlfail a hm

/-- Witness for C2: small tier always fails, large tier succeeds at once,
`R = 2`. -/
theorem c2_fallback_tier_order_witness :
    (∃ a ∈ fallback_attempts (fun _ => Except.error "timeout")
        (fun _ => Except.ok "SELECT 1") 2, a.model = Tier.large)
    ∧ (∀ a ∈ (fallback_attempts (fun _ => Except.error "timeout")
        (fun _ => Except.ok "SELECT 1") 2).take 2,
        a.model = Tier.small ∧ a.success = false) :=
  ⟨by decide,
    ((c2_fallback_tier_order (fun _ => Except.error "timeout")
      (fun _ => Except.ok "SELECT 1") 2).2.1 (by decide)).2⟩

/-- C3 helper: when the enabled check rejects a query, the reported error
list is present and non-empty. -/
theorem sql_check_invalid (q : List Char) (h : (sql_check true q).1 = false) :
    (sql_check true q).2 = some (sql_check_errors q) ∧ sql_check_errors q ≠ [] := by
  have h1 : (sql_check_errors q).isEmpty = false := by
    simpa [sql_check] using h
  constructor
  · simp [sql_check, h1]
  · intro hnil
    rw [hnil] at h1
    simp at h1

/-- C3 helper: when every generated query fails the check, the loop runs
all its iterations and exits on the last one with the failure outcome. -/
theorem genLoop_all_fail (gen : Nat → List Char)
    (hfail : ∀ i, (sql_check true (gen i)).1 = false) :
    ∀ remaining attempt, 1 ≤ remaining →
      genLoop gen true remaining attempt =
        some ⟨gen (attempt + remaining - 1), false,
              (sql_check true (gen (attempt + remaining - 1))).2,
              attempt + remaining⟩ := by
  intro remaining
  induction remaining with
  | zero =>
    intro attempt h
    omega
  | succ n ih =>
    intro attempt _
    rw [genLoop]
    rw [if_neg (by simp [hfail attempt])]
    cases n with
    | zero => simp
    | succ m =>
      rw [if_neg (by omega)]
      have harith1 : attempt + 1 + (m + 1) - 1 = attempt + (m + 1 + 1) - 1 := by omega
      have harith2 : attempt + 1 + (m + 1) = attempt + (m + 1 + 1) := by omega
      rw [ih (attempt + 1) (by omega), harith1, harith2]

/-- C3: when every generation call returns SQL that fails the syntax
check, `generate_query` terminates with a result (no exception), issues
exactly `max_validation_retries` generation calls — hence at most
`max_validation_retries` correction attempts — and returns
`validation_passed = false` with a non-empty error list. -/
theorem c3_retry_bound (gen : Nat → List Char) (maxR : Nat)
    (hmax : 1 ≤ maxR) (hfail : ∀ i, (sql_check true (gen i)).1 = false) :
    ∃ out, generate_query gen true maxR = some out
      ∧ out.validation_passed = false
      ∧ out.generation_calls = maxR
      ∧ out.generation_calls ≤ maxR
      ∧ ∃ errs, out.validation_errors = some errs ∧ errs ≠ [] := by
  refine ⟨_, genLoop_all_fail gen hfail maxR 0 hmax, rfl, by simp, by simp, ?_⟩
  obtain ⟨hsome, hne⟩ := sql_check_invalid (gen (0 + maxR - 1)) (hfail _)
  exact ⟨sql_check_errors (gen (0 + maxR - 1)), hsome, hne⟩

/-- Witness for C3: every attempt yields `SELECT` (no FROM clause, ends
with a keyword), with the default `max_validation_retries = 3`. -/
theorem c3_retry_bound_witness :
    ∃ out, generate_query (fun _ => "SELECT".toList) true 3 = some out
      ∧ out.validation_passed = false
      ∧ out.generation_calls ≤ 3
      ∧ ∃ errs, out.validation_errors = some errs ∧ errs ≠ [] := by
  have hone : (sql_check true ("SELECT".toList)).1 = false := by decide
  obtain ⟨out, h1, h2, _, h4, h5⟩ :=
    c3_retry_bound (fun _ => "SELECT".toList) 3 (by norm_num) (fun _ => hone)
  exact ⟨out, h1, h2, h4, h5⟩


/-- C4 helper: the reversed argsort is strictly ordered: descending
similarity with ties broken by the higher index first. -/
theorem argsort_desc_pairwise (sims : List ℚ) :
    List.Pairwise (fun i j => argsort_le sims j i ∧ i ≠ j) (argsort_desc sims) := by
  have hs : List.Pairwise (argsort_le sims)
      (List.insertionSort (argsort_le sims) (List.range sims.length)) :=
    List.sorted_insertionSort (argsort_le sims) (List.range sims.length)
  have hnd : (List.insertionSort (argsort_le sims) (List.range sims.length)).Nodup :=
    (List.perm_insertionSort (argsort_le sims) (List.range sims.length)).symm.nodup
      (List.nodup_range sims.length)
  have h1 : List.Pairwise (fun i j => argsort_le sims j i) (argsort_desc sims) :=
    List.pairwise_reverse.mpr hs
  have h2 : (argsort_desc sims).Nodup := by
    unfold argsort_desc
    exact List.nodup_reverse.mpr hnd
  exact (h1.and h2).imp (fun h => ⟨h.1, h.2⟩)

/-- C4 helper: every index reported by the reversed argsort is in range. -/
theorem argsort_desc_mem (sims : List ℚ) (i : Nat) (h : i ∈ argsort_desc sims) :
    i < sims.length := by
  unfold argsort_desc at h
  rw [List.mem_reverse] at h
  exact List.mem_range.mp
    ((List.perm_insertionSort (argsort_le sims) (List.range sims.length)).mem_iff.mp h)

/-- C4 (amended): `search_similar_questions` returns at most `top_k`
matches; every match carries its stored similarity, which is at least the
threshold; and the matches are ordered by descending similarity with ties
broken by the later-inserted pair first. -/
theorem c4_search_ranking (sims : List ℚ) (top_k : Nat) (threshold : ℚ) :
    (search_similar_questions sims top_k threshold).length ≤ top_k
    ∧ (∀ p ∈ search_similar_questions sims top_k threshold,
        threshold ≤ p.2 ∧ p.2 = simOf sims p.1 ∧ p.1 < sims.length)
    ∧ List.Pairwise rank_rel (search_similar_questions sims top_k threshold) := by
  by_cases hemp : sims.isEmpty
  · unfold search_similar_questions
    simp [hemp]
  · have hrw : search_similar_questions sims top_k threshold =
        (((argsort_desc sims).take top_k).filter
          (fun idx => threshold ≤ simOf sims idx)).map
          (fun idx => (idx, simOf sims idx)) := by
      unfold search_similar_questions
      simp [hemp]
    rw [hrw]
    refine ⟨?_, ?_, ?_⟩
    · calc ((((argsort_desc sims).take top_k).filter
            (fun idx => threshold ≤ simOf sims idx)).map
            (fun idx => (idx, simOf sims idx))).length
          = (((argsort_desc sims).take top_k).filter
            (fun idx => threshold ≤ simOf sims idx)).length := List.length_map _ _
        _ ≤ ((argsort_desc sims).take top_k).length := List.length_filter_le _ _
        _ ≤ top_k := List.length_take_le _ _
    · intro p hp
      obtain ⟨idx, hidx, rfl⟩ := List.mem_map.mp hp
      obtain ⟨hmem, hthr⟩ := List.mem_filter.mp hidx
      refine ⟨by simpa using hthr, rfl, ?_⟩
      exact argsort_desc_mem sims idx (List.mem_of_mem_take hmem)
    · have hp0 := argsort_desc_pairwise sims
      have hp1 := hp0.sublist (List.take_sublist top_k (argsort_desc sims))
      have hp2 := hp1.sublist
        (List.filter_sublist (p := fun idx => decide (threshold ≤ simOf sims idx))
          ((argsort_desc sims).take top_k))
      refine hp2.map (fun idx => (idx, simOf sims idx)) ?_
      intro i j hij
      obtain ⟨hle, hne⟩ := hij
      unfold argsort_le at hle
      unfold rank_rel
      rcases hle with h | ⟨heq, hji⟩
      · exact Or.inl h
      · exact Or.inr ⟨heq.symm, lt_of_le_of_ne hji (fun hc => hne hc.symm)⟩

/-- Witness for C4: two equal-similarity pairs, `top_k = 5`,
`threshold = 0`. -/
theorem c4_search_ranking_witness :
    List.Pairwise rank_rel (search_similar_questions [(1 : ℚ), 1] 5 0)
    ∧ (search_similar_questions [(1 : ℚ), 1] 5 0).length ≤ 5
    ∧ (0 : ℚ) ≤ ((1 : Nat), (1 : ℚ)).2 :=
  ⟨(c4_search_ranking [(1 : ℚ), 1] 5 0).2.2,
   (c4_search_ranking [(1 : ℚ), 1] 5 0).1,
   ((c4_search_ranking [(1 : ℚ), 1] 5 0).2.1 ((1 : Nat), (1 : ℚ)) (by decide)).1⟩

/-- C4 counterexample to the claim as stated: with two stored pairs of
equal similarity, the pair inserted later (index 1) is ranked first, not
the pair inserted earlier — the reversed ascending argsort puts the
higher index first on ties. -/
theorem c4_earlier_insertion_counterexample :
    search_similar_questions [(1 : ℚ), 1] 5 0 = [(1, 1), (0, 1)]
    ∧ ¬ List.Pairwise spec_rank_rel (search_similar_questions [(1 : ℚ), 1] 5 0) := by
  constructor
  · decide
  · decide
